import Mathlib

/-!
Shallow embedding of `samcli/commands/pipeline/init/interactive_init_flow.py`.

The module under verification is the interactive `sam pipeline init` wizard.
External collaborators (the filesystem, the persisted configuration store,
the git clone operation and the interactive prompts) are modelled as explicit
inputs:

* the configuration store (`samconfig.SamConfig`) is a record of the three
  queries the module performs on it (`exists`, `get_env_names`, `get_all`);
* the filesystem seen by `_copy_dir_contents_to_cwd_fail_on_exist` is the
  list of file paths produced by `os.walk` on the rendered scratch directory
  (paths relative to that directory, in walk order) together with an
  existence predicate for target paths in the working directory;
* the outcome of `GitRepo.clone` is an `Except` value;
* each `click` prompt is an oracle function from the offered options to the
  chosen answer, and `click.confirm` is a boolean oracle.

Python dictionaries are modelled as insertion-ordered association lists with
in-place update (`dictInsert`), and Python's `str` applied to a list of
strings (used by the module to build context keys) is modelled by
`pyStrList` / `pyReprStr`, following CPython's quote-selection and escaping
rules for `repr` of a string.
-/

/-- The single-quote character (written via its code point to keep the
source free of tricky literals). -/
def squoteChar : Char := Char.ofNat 39

/-- The double-quote character. -/
def dquoteChar : Char := Char.ofNat 34

/-- The single-quote character as a one-character string. -/
def singleQuote : String := String.singleton squoteChar

/-- Whether a string contains a given character (structural recursion over
the character list, mirroring Python's `in` on `str`). -/
def strContainsChar (s : String) (c : Char) : Bool :=
  s.toList.any (fun a => a == c)

/-- Python's `str.join` / our `intercalate`: joins the list with the
separator between consecutive elements. -/
def strIntercalate (sep : String) : List String → String
  | [] => ""
  | s :: rest => rest.foldl (fun acc x => acc ++ sep ++ x) s

/-- Lower-case hexadecimal digit for a value below 16, used by the
`\xhh` escapes of Python's string `repr`. -/
def hexDigitChar (n : Nat) : Char :=
  if n < 10 then Char.ofNat (48 + n) else Char.ofNat (87 + n)

/-- Escaping of one character inside a Python string `repr` rendered with
quote character `q`: backslash and the active quote are backslash-escaped,
newline / carriage return / tab use their mnemonic escapes, other control
characters use `\xhh`, and every other character stands for itself. -/
def pyCharEscape (q c : Char) : String :=
  if c = '\\' then "\\\\"
  else if c = q then "\\" ++ String.singleton q
  else if c = '\n' then "\\n"
  else if c = '\r' then "\\r"
  else if c = '\t' then "\\t"
  else if c.toNat < 32 || c.toNat == 127 then
    "\\x" ++ String.singleton (hexDigitChar (c.toNat / 16))
      ++ String.singleton (hexDigitChar (c.toNat % 16))
  else String.singleton c

/-- Python's `repr` of a string: single quotes by default, double quotes
when the string contains a single quote but no double quote. -/
def pyReprStr (s : String) : String :=
  let q : Char :=
    if strContainsChar s squoteChar && !(strContainsChar s dquoteChar) then dquoteChar
    else squoteChar
  String.singleton q ++ (s.toList.foldl (fun acc c => acc ++ pyCharEscape q c) "")
    ++ String.singleton q

/-- Python's `str` applied to a list of strings, e.g.
`str(["environment_names_message"])`: the bracketed, comma-separated
`repr`s of the elements. -/
def pyStrList (xs : List String) : String :=
  "[" ++ strIntercalate ", " (xs.map pyReprStr) ++ "]"

/-- Lookup in an insertion-ordered association list: the value of the first
entry whose key matches (Python dict lookup). -/
def dictGet : List (String × String) → String → Option String
  | [], _ => none
  | kv :: rest, k => if kv.1 = k then some kv.2 else dictGet rest k

/-- Python dict assignment `d[k] = v` on an insertion-ordered association
list: update in place when the key is present, append otherwise. -/
def dictInsert (ctx : List (String × String)) (k v : String) : List (String × String) :=
  if ctx.any (fun kv => kv.1 == k) then
    ctx.map (fun kv => if kv.1 = k then (k, v) else kv)
  else
    ctx ++ [(k, v)]

/-- The persisted configuration store (`samconfig.SamConfig`), reduced to
the three queries `_load_pipeline_bootstrap_resources` performs on it.
`get_all` is the mapping returned by
`config.get_all(_get_bootstrap_command_names(), "parameters", env)` for a
given environment, as an ordered list of key/value pairs. -/
structure SamConfig where
  exists_ : Bool
  get_env_names : List String
  get_all : String → List (String × String)

/-- Modelled from the spec: the persisted configuration lives at a fixed
directory/filename pair (`PIPELINE_CONFIG_DIR`, imported by the source from
the bootstrap cli module, which is not part of this repository slice); the
source's comment names `pipelineconfig.toml` inside the `.aws-sam/pipeline`
directory. Its concrete value is irrelevant to every claim below. -/
def PIPELINE_CONFIG_DIR : String := ".aws-sam/pipeline"

/-- Modelled from the spec: the fixed configuration file name (see
`PIPELINE_CONFIG_DIR`). -/
def PIPELINE_CONFIG_FILENAME : String := "pipelineconfig.toml"

/-- The `os.path.join(PIPELINE_CONFIG_DIR, PIPELINE_CONFIG_FILENAME)`
appearing in the environment-names message. -/
def pipelineConfigPath : String := PIPELINE_CONFIG_DIR ++ "/" ++ PIPELINE_CONFIG_FILENAME

/-- Embedding of `_load_pipeline_bootstrap_resources` (source lines
216-241): when the store does not exist, return an empty environment list
and a context holding only an empty summary message; otherwise drop the
reserved "default" environment, copy every parameter of every remaining
environment into the context under the key `str([env, key])`, and store the
environment-names message under the key
`str(["environment_names_message"])`. -/
def _load_pipeline_bootstrap_resources (config : SamConfig) :
    List String × List (String × String) :=
  if config.exists_ = false then
    ([], dictInsert [] (pyStrList ["environment_names_message"]) "")
  else
    let env_names := config.get_env_names.filter (fun env_name => env_name != "default")
    let context := env_names.foldl
      (fun ctx env =>
        (config.get_all env).foldl
          (fun ctx kv => dictInsert ctx (pyStrList [env, kv.1]) kv.2) ctx)
      []
    let environment_names_message :=
      "Here are the environment names detected " ++ "in " ++ pipelineConfigPath ++ ":\n"
        ++ strIntercalate "\n" (env_names.map (fun env_name => "\t- " ++ env_name))
    (env_names,
      dictInsert context (pyStrList ["environment_names_message"]) environment_names_message)

/-- The error kinds raised by the module: `PipelineFileAlreadyExistsError`
(a target file already exists in the working directory) and
`PipelineTemplateCloneException` (wrapping an `OSError` or
`CloneRepoException` message from the clone collaborator). -/
inductive PipelineErr where
  | fileAlreadyExists (path : String)
  | templateClone (message : String)
deriving DecidableEq

deriving instance DecidableEq for Except

/-- Outcome of `_copy_dir_contents_to_cwd_fail_on_exist`: the returned list
of copied relative paths (or the raised error), together with the list of
files the call wrote into the working directory (`osutils.copytree` runs
only after the whole pre-flight check passed and writes every walked
file). -/
structure CopyOutcome where
  result : Except PipelineErr (List String)
  written : List String
deriving DecidableEq

/-- The pre-flight loop of `_copy_dir_contents_to_cwd_fail_on_exist`
(source lines 246-253): walk the files in order, raise
`PipelineFileAlreadyExistsError` at the first target path that already
exists, otherwise accumulate the relative path. -/
def copyCheckLoop (cwdExists : String → Bool) :
    List String → List String → Except PipelineErr (List String)
  | [], copied_file_paths => .ok copied_file_paths
  | filename :: rest, copied_file_paths =>
    if cwdExists filename then .error (.fileAlreadyExists filename)
    else copyCheckLoop cwdExists rest (copied_file_paths ++ [filename])

/-- Embedding of `_copy_dir_contents_to_cwd_fail_on_exist` (source lines
244-256). `walkFiles` is the list of file paths under the scratch
directory, relative to it and in `os.walk` order (for such a relative path
`rel`, the checked and returned target is `Path(".").joinpath(rel)`, which
normalizes to `rel` itself); `cwdExists` tells whether a target path
already exists in the working directory. On success `copytree` writes
every walked file; on failure nothing is written. -/
def _copy_dir_contents_to_cwd_fail_on_exist (walkFiles : List String)
    (cwdExists : String → Bool) : CopyOutcome :=
  match copyCheckLoop cwdExists walkFiles [] with
  | .ok copied => { result := .ok copied, written := walkFiles }
  | .error e => { result := .error e, written := [] }

/-- Folder name of the curated catalogue clone (source line 34). -/
def APP_PIPELINE_TEMPLATES_REPO_LOCAL_NAME : String := "aws-sam-cli-app-pipeline-templates"

/-- Embedding of `_clone_pipeline_templates` (source lines 280-299): the
clone attempt either yields a local path or an `OSError` /
`CloneRepoException` message, which the function wraps into
`PipelineTemplateCloneException`. -/
def _clone_pipeline_templates (cloneAttempt : Except String String) :
    Except PipelineErr String :=
  match cloneAttempt with
  | .ok clone_path => .ok clone_path
  | .error ex => .error (.templateClone ex)

/-- Outcome of `_clone_app_pipeline_templates`: the resulting local path or
propagated error, plus whether the stale-copy warning was emitted. -/
structure CloneAppOutcome where
  result : Except PipelineErr String
  warnedStaleCopy : Bool
deriving DecidableEq

/-- Embedding of `_clone_app_pipeline_templates` (source lines 259-277):
attempt the clone; on `PipelineTemplateCloneException` (the only error kind
`_clone_pipeline_templates` produces), fall back with a warning to the
clone left by a previous run at
`shared_path.joinpath(APP_PIPELINE_TEMPLATES_REPO_LOCAL_NAME)` when it
exists, and re-raise otherwise. `shared_path` is the ambient shared
configuration directory. -/
def _clone_app_pipeline_templates (shared_path : String)
    (cloneAttempt : Except String String) (previousCloneExists : Bool) : CloneAppOutcome :=
  match _clone_pipeline_templates cloneAttempt with
  | .ok p => { result := .ok p, warnedStaleCopy := false }
  | .error e =>
    if previousCloneExists then
      { result := .ok (shared_path ++ "/" ++ APP_PIPELINE_TEMPLATES_REPO_LOCAL_NAME),
        warnedStaleCopy := true }
    else
      { result := .error e, warnedStaleCopy := false }

/-- A CI/CD provider entry of the manifest
(`pipeline_templates_manifest.Provider`). -/
structure Provider where
  id : String
  display_name : String
deriving DecidableEq

/-- A pipeline template entry of the manifest
(`pipeline_templates_manifest.PipelineTemplateMetadata`); `provider` is the
id of the provider the template belongs to. -/
structure PipelineTemplateMetadata where
  display_name : String
  provider : String
  location : String
deriving DecidableEq

/-- The parsed manifest (`pipeline_templates_manifest.PipelineTemplatesManifest`). -/
structure PipelineTemplatesManifest where
  providers : List Provider
  templates : List PipelineTemplateMetadata

/-- Embedding of `_prompt_cicd_provider` (source lines 340-357). The `ask`
oracle models the `Choice` question: given the offered display names it
returns the user's answer. The boolean of the returned pair records
whether the user was prompted; `none` models the `StopIteration` of
`next(...)` when no provider carries the chosen display name. -/
def _prompt_cicd_provider (available_providers : List Provider)
    (ask : List String → String) : Option (Provider × Bool) :=
  if available_providers.length = 1 then
    available_providers.head?.map (fun p => (p, false))
  else
    let chosen_provider_display_name :=
      ask (available_providers.map (fun p => p.display_name))
    (available_providers.find?
        (fun p => p.display_name == chosen_provider_display_name)).map
      (fun p => (p, true))

/-- Embedding of `_prompt_provider_pipeline_template` (source lines
360-384), analogous to `_prompt_cicd_provider`. -/
def _prompt_provider_pipeline_template
    (provider_available_pipeline_templates_metadata : List PipelineTemplateMetadata)
    (ask : List String → String) : Option (PipelineTemplateMetadata × Bool) :=
  if provider_available_pipeline_templates_metadata.length = 1 then
    provider_available_pipeline_templates_metadata.head?.map (fun t => (t, false))
  else
    let chosen_pipeline_template_display_name :=
      ask (provider_available_pipeline_templates_metadata.map (fun t => t.display_name))
    (provider_available_pipeline_templates_metadata.find?
        (fun t => t.display_name == chosen_pipeline_template_display_name)).map
      (fun t => (t, true))

/-- Result of `_prompt_pipeline_template`: the selected template and
whether each of the two selection steps actually prompted the user. -/
structure TemplateSelection where
  template : PipelineTemplateMetadata
  providerPrompted : Bool
  templatePrompted : Bool
deriving DecidableEq

/-- Embedding of `_prompt_pipeline_template` (source lines 319-337): select
a provider, filter the manifest's templates to that provider's id, then
select among the remaining templates. -/
def _prompt_pipeline_template (pipeline_templates_manifest : PipelineTemplatesManifest)
    (askProvider askTemplate : List String → String) : Option TemplateSelection :=
  match _prompt_cicd_provider pipeline_templates_manifest.providers askProvider with
  | none => none
  | some (provider, providerPrompted) =>
    let provider_pipeline_templates :=
      pipeline_templates_manifest.templates.filter (fun t => t.provider == provider.id)
    match _prompt_provider_pipeline_template provider_pipeline_templates askTemplate with
    | none => none
    | some (t, templatePrompted) =>
      some { template := t, providerPrompted := providerPrompted,
             templatePrompted := templatePrompted }

/-- Outcome of `_prompt_run_bootstrap_within_pipeline_init`: whether
`do_bootstrap` was invoked and the returned boolean. -/
structure PromptBootstrapOutcome where
  ranBootstrap : Bool
  result : Bool
deriving DecidableEq

/-- Embedding of `_prompt_run_bootstrap_within_pipeline_init` (source lines
121-186): when `allow_bootstrap` is set and the user confirms, run
`do_bootstrap` and return `True`; in every other case only echo guidance
and return `False`. `confirm` is the `click.confirm` oracle (consulted
only when `allow_bootstrap` is set); the `env_names` and
`required_env_number` arguments of the source only shape echoed text. -/
def _prompt_run_bootstrap_within_pipeline_init (allow_bootstrap confirm : Bool) :
    PromptBootstrapOutcome :=
  if allow_bootstrap then
    if confirm then { ranBootstrap := true, result := true }
    else { ranBootstrap := false, result := false }
  else { ranBootstrap := false, result := false }

/-- Result of the precondition-check loop: `done checks env_names ctx`
records that the loop exited after performing `checks` resource checks,
with the environment list and bootstrap context of the last check;
`outOfFuel` records that the given fuel was exhausted with the loop still
running. -/
inductive LoopResult where
  | done (checks : Nat) (env_names : List String) (bootstrap_context : List (String × String))
  | outOfFuel
deriving DecidableEq

/-- Embedding of the `while True` precondition-check loop of
`_generate_from_pipeline_template` (source lines 197-206). `store i` is
the state of the persisted configuration store at the i-th check (running
`do_bootstrap` may change it between checks) and `confirm i` the i-th
answer of the `click.confirm` oracle. The source loop has no bound; `fuel`
is an artifact of the embedding, spent one unit per check. The nested
conditionals mirror the short-circuit
`len(env_names) < required and self._prompt_run_bootstrap_within_pipeline_init(...)`:
the prompt runs only when the count is insufficient. -/
def bootstrapCheckLoop (required_env_number : Nat) (allow_bootstrap : Bool)
    (store : Nat → SamConfig) (confirm : Nat → Bool) : Nat → Nat → LoopResult
  | 0, _ => .outOfFuel
  | fuel + 1, i =>
    let res := _load_pipeline_bootstrap_resources (store i)
    if res.1.length < required_env_number then
      if (_prompt_run_bootstrap_within_pipeline_init allow_bootstrap (confirm i)).result then
        bootstrapCheckLoop required_env_number allow_bootstrap store confirm fuel (i + 1)
      else .done (i + 1) res.1 res.2
    else .done (i + 1) res.1 res.2

/-- The pre-flight loop returns all walked paths when no target exists. -/
theorem copyCheckLoop_ok_of_no_conflict (cwdExists : String → Bool) :
    ∀ (files acc : List String), (∀ p ∈ files, cwdExists p = false) →
      copyCheckLoop cwdExists files acc = .ok (acc ++ files) := by
  intro files
  induction files with
  | nil => intro acc _; simp [copyCheckLoop]
  | cons f rest ih =>
    intro acc h
    have hf : cwdExists f = false := h f (by simp)
    have hrest : ∀ p ∈ rest, cwdExists p = false := fun p hp => h p (by simp [hp])
    simp [copyCheckLoop, hf, ih (acc ++ [f]) hrest]

/-- The pre-flight loop raises on some conflicting walked path when one
target exists. -/
theorem copyCheckLoop_error_of_conflict (cwdExists : String → Bool) :
    ∀ (files acc : List String), (∃ p ∈ files, cwdExists p = true) →
      ∃ q ∈ files, cwdExists q = true ∧
        copyCheckLoop cwdExists files acc = .error (.fileAlreadyExists q) := by
  intro files
  induction files with
  | nil => intro acc h; simp at h
  | cons f rest ih =>
    intro acc h
    by_cases hf : cwdExists f = true
    · exact ⟨f, by simp, hf, by simp [copyCheckLoop, hf]⟩
    · have hf' : cwdExists f = false := by simpa using hf
      have h' : ∃ p ∈ rest, cwdExists p = true := by
        rcases h with ⟨p, hp, hpt⟩
        rcases List.mem_cons.1 hp with rfl | hp'
        · exact absurd hpt hf
        · exact ⟨p, hp', hpt⟩
      rcases ih (acc ++ [f]) h' with ⟨q, hq, hqt, hloop⟩
      exact ⟨q, by simp [hq], hqt, by simp [copyCheckLoop, hf', hloop]⟩

/-- C1: if any file of the rendered scratch directory has a target path
(relative to the working directory) that already exists, then
`_copy_dir_contents_to_cwd_fail_on_exist` fails with
`PipelineFileAlreadyExistsError` reporting a conflicting path, and no file
of the generation batch is written to the working directory. -/
theorem copy_fails_on_existing_target (walkFiles : List String) (cwdExists : String → Bool)
    (h : ∃ p ∈ walkFiles, cwdExists p = true) :
    ∃ q ∈ walkFiles, cwdExists q = true ∧
      (_copy_dir_contents_to_cwd_fail_on_exist walkFiles cwdExists).result =
        .error (.fileAlreadyExists q) ∧
      (_copy_dir_contents_to_cwd_fail_on_exist walkFiles cwdExists).written = [] := by
  rcases copyCheckLoop_error_of_conflict cwdExists walkFiles [] h with ⟨q, hq, hqt, hloop⟩
  refine ⟨q, hq, hqt, ?_, ?_⟩ <;>
    simp [_copy_dir_contents_to_cwd_fail_on_exist, hloop]

/-- Witness for C1: a one-file scratch directory whose single target
already exists in the working directory. -/
theorem copy_fails_on_existing_target_witness :
    ∃ q ∈ ["Jenkinsfile"], (fun _ => true : String → Bool) q = true ∧
      (_copy_dir_contents_to_cwd_fail_on_exist ["Jenkinsfile"] (fun _ => true)).result =
        .error (.fileAlreadyExists q) ∧
      (_copy_dir_contents_to_cwd_fail_on_exist ["Jenkinsfile"] (fun _ => true)).written = [] :=
  copy_fails_on_existing_target ["Jenkinsfile"] (fun _ => true) ⟨"Jenkinsfile", by simp, rfl⟩

/-- C4: when the working directory contains none of the rendered paths,
`_copy_dir_contents_to_cwd_fail_on_exist` succeeds and returns exactly the
walked file paths of the scratch directory, relative to the working
directory, in directory-walk order. -/
theorem copy_succeeds_on_fresh_dir (walkFiles : List String) (cwdExists : String → Bool)
    (h : ∀ p ∈ walkFiles, cwdExists p = false) :
    (_copy_dir_contents_to_cwd_fail_on_exist walkFiles cwdExists).result = .ok walkFiles ∧
    (_copy_dir_contents_to_cwd_fail_on_exist walkFiles cwdExists).written = walkFiles := by
  have hloop := copyCheckLoop_ok_of_no_conflict cwdExists walkFiles [] h
  rw [List.nil_append] at hloop
  constructor <;> simp [_copy_dir_contents_to_cwd_fail_on_exist, hloop]

/-- Witness for C4: a two-file scratch directory copied into an empty
working directory. -/
theorem copy_succeeds_on_fresh_dir_witness :
    (_copy_dir_contents_to_cwd_fail_on_exist ["a.yml", "sub/b.yml"]
        (fun _ => false)).result = .ok ["a.yml", "sub/b.yml"] ∧
    (_copy_dir_contents_to_cwd_fail_on_exist ["a.yml", "sub/b.yml"]
        (fun _ => false)).written = ["a.yml", "sub/b.yml"] :=
  copy_succeeds_on_fresh_dir ["a.yml", "sub/b.yml"] (fun _ => false) (fun _ _ => rfl)

/-- C6: for the curated catalogue, a clone failure falls back (with a
warning) to the clone of a previous run when one exists at the expected
local path, and propagates the error otherwise. -/
theorem clone_app_templates_fallback (shared_path ex : String) (previousCloneExists : Bool) :
    _clone_app_pipeline_templates shared_path (.error ex) previousCloneExists =
      if previousCloneExists then
        { result := .ok (shared_path ++ "/" ++ APP_PIPELINE_TEMPLATES_REPO_LOCAL_NAME),
          warnedStaleCopy := true }
      else
        { result := .error (.templateClone ex), warnedStaleCopy := false } := by
  cases previousCloneExists <;> rfl

/-- C7: a manifest with exactly one provider yields that provider without
prompting the user. -/
theorem single_provider_no_prompt (p : Provider) (ask : List String → String) :
    _prompt_cicd_provider [p] ask = some (p, false) := rfl

/-- C8: `_prompt_pipeline_template` filters the manifest's templates to the
selected provider's id, and when exactly one template remains it is
returned without prompting the user. -/
theorem single_template_after_filter_no_prompt (m : PipelineTemplatesManifest)
    (askP askT : List String → String) (p : Provider) (b : Bool)
    (t : PipelineTemplateMetadata)
    (hp : _prompt_cicd_provider m.providers askP = some (p, b))
    (ht : m.templates.filter (fun t2 => t2.provider == p.id) = [t]) :
    _prompt_pipeline_template m askP askT =
      some { template := t, providerPrompted := b, templatePrompted := false } := by
  simp [_prompt_pipeline_template, hp, ht, _prompt_provider_pipeline_template]

/-- The manifest of the witness scenario for C8: two providers, one
template belonging to the first of them. -/
def witnessManifest : PipelineTemplatesManifest :=
  { providers := [{ id := "jenkins", display_name := "Jenkins" },
                  { id := "gitlab", display_name := "GitLab" }],
    templates := [{ display_name := "Two-stage", provider := "jenkins",
                    location := "some/location" }] }

/-- The prompt oracle of the witness scenario for C8: the user always
answers Jenkins. -/
def chooseJenkins : List String → String := fun _ => "Jenkins"

/-- Witness for C8 at the spec's scenario manifest. -/
theorem single_template_after_filter_no_prompt_witness :
    _prompt_pipeline_template witnessManifest chooseJenkins chooseJenkins =
      some { template := { display_name := "Two-stage", provider := "jenkins",
                           location := "some/location" },
             providerPrompted := true, templatePrompted := false } :=
  single_template_after_filter_no_prompt witnessManifest chooseJenkins chooseJenkins
    { id := "jenkins", display_name := "Jenkins" } true
    { display_name := "Two-stage", provider := "jenkins", location := "some/location" }
    (by decide) (by decide)

/-- C2 (counterexample): with an absent configuration store the returned
context is not the mapping with literal key "environment_names_message" —
the actual key is the Python list-repr of that name. -/
theorem load_resources_missing_config_counterexample :
    (_load_pipeline_bootstrap_resources
        { exists_ := false, get_env_names := [], get_all := fun _ => [] }).2 ≠
      [("environment_names_message", "")] := by decide

/-- C2 (amended): when the configuration store does not exist,
`_load_pipeline_bootstrap_resources` returns the empty environment list
and the context mapping the key `str(["environment_names_message"])` —
that is, the literal string `['environment_names_message']` — to the empty
string. -/
theorem load_resources_missing_config (config : SamConfig) (h : config.exists_ = false) :
    _load_pipeline_bootstrap_resources config =
      ([], [(pyStrList ["environment_names_message"], "")]) ∧
    pyStrList ["environment_names_message"] =
      "[" ++ singleQuote ++ "environment_names_message" ++ singleQuote ++ "]" := by
  constructor
  · simp [_load_pipeline_bootstrap_resources, h, dictInsert]
  · decide

/-- Witness for C2 (amended) at a concrete absent store. -/
theorem load_resources_missing_config_witness :
    _load_pipeline_bootstrap_resources
        { exists_ := false, get_env_names := [], get_all := fun _ => [] } =
      ([], [(pyStrList ["environment_names_message"], "")]) ∧
    pyStrList ["environment_names_message"] =
      "[" ++ singleQuote ++ "environment_names_message" ++ singleQuote ++ "]" :=
  load_resources_missing_config
    { exists_ := false, get_env_names := [], get_all := fun _ => [] } rfl


/-- Updating a present key in place makes lookup return the new value. -/
theorem dictGet_map_set (k v : String) :
    ∀ ctx : List (String × String), ctx.any (fun kv => kv.1 == k) = true →
      dictGet (ctx.map (fun kv => if kv.1 = k then (k, v) else kv)) k = some v := by
  intro ctx
  induction ctx with
  | nil => intro h; simp at h
  | cons a tl ih =>
    intro h
    by_cases ha : a.1 = k
    · simp [dictGet, ha]
    · have h' : tl.any (fun kv => kv.1 == k) = true := by
        simp only [List.any_cons, Bool.or_eq_true, beq_iff_eq] at h
        rcases h with h | h
        · exact absurd h ha
        · exact h
      simp [dictGet, ha, ih h']

/-- Appending a fresh key makes lookup return its value. -/
theorem dictGet_append_new (k v : String) :
    ∀ ctx : List (String × String), ctx.any (fun kv => kv.1 == k) = false →
      dictGet (ctx ++ [(k, v)]) k = some v := by
  intro ctx
  induction ctx with
  | nil => intro _; simp [dictGet]
  | cons a tl ih =>
    intro h
    simp only [List.any_cons, Bool.or_eq_false_iff, beq_eq_false_iff_ne, ne_eq] at h
    simp [dictGet, h.1, ih (by simpa [Bool.or_eq_false_iff] using h.2)]

/-- Dict assignment followed by lookup of the same key yields the assigned
value. -/
theorem dictGet_dictInsert_self (ctx : List (String × String)) (k v : String) :
    dictGet (dictInsert ctx k v) k = some v := by
  by_cases h : ctx.any (fun kv => kv.1 == k) = true
  · unfold dictInsert
    rw [if_pos h]
    exact dictGet_map_set k v ctx h
  · have h' : ctx.any (fun kv => kv.1 == k) = false := by
      cases hval : ctx.any (fun kv => kv.1 == k)
      · rfl
      · exact absurd hval h
    unfold dictInsert
    rw [if_neg h]
    exact dictGet_append_new k v ctx h'

/-- Updating key `k` in place does not change lookups of other keys. -/
theorem dictGet_map_set_ne (k v k' : String) (hne : ¬ k = k') :
    ∀ ctx : List (String × String),
      dictGet (ctx.map (fun kv => if kv.1 = k then (k, v) else kv)) k' = dictGet ctx k' := by
  intro ctx
  induction ctx with
  | nil => simp
  | cons a tl ih =>
    by_cases ha : a.1 = k
    · have ha2 : ¬ a.1 = k' := by rw [ha]; exact hne
      simp [dictGet, ha, ha2, hne, ih]
    · simp [dictGet, ha, ih]

/-- A lookup that succeeds on a prefix is unaffected by appending. -/
theorem dictGet_append_left (l1 l2 : List (String × String)) (k' : String)
    (h : (dictGet l1 k').isSome = true) :
    dictGet (l1 ++ l2) k' = dictGet l1 k' := by
  induction l1 with
  | nil => simp [dictGet] at h
  | cons a tl ih =>
    by_cases ha : a.1 = k'
    · simp [dictGet, ha]
    · have h' : (dictGet tl k').isSome = true := by simpa [dictGet, ha] using h
      simp [dictGet, ha, ih h']

/-- Dict assignment preserves the definedness of every lookup. -/
theorem dictGet_isSome_dictInsert (ctx : List (String × String)) (k v k' : String)
    (h : (dictGet ctx k').isSome = true) :
    (dictGet (dictInsert ctx k v) k').isSome = true := by
  by_cases hk : k = k'
  · subst hk
    rw [dictGet_dictInsert_self]
    rfl
  · by_cases hany : ctx.any (fun kv => kv.1 == k) = true
    · unfold dictInsert
      rw [if_pos hany, dictGet_map_set_ne k v k' hk ctx]
      exact h
    · unfold dictInsert
      rw [if_neg hany, dictGet_append_left ctx [(k, v)] k' h]
      exact h

/-- Every entry after a dict assignment was already present or carries the
assigned key. -/
theorem mem_dictInsert (ctx : List (String × String)) (k v : String) (kv : String × String)
    (h : kv ∈ dictInsert ctx k v) : kv ∈ ctx ∨ kv.1 = k := by
  unfold dictInsert at h
  by_cases hany : ctx.any (fun kv2 => kv2.1 == k) = true
  · rw [if_pos hany] at h
    rcases List.mem_map.1 h with ⟨a, ha, hEq⟩
    by_cases hak : a.1 = k
    · right
      rw [← hEq]
      simp [hak]
    · left
      rw [← hEq]
      simpa [hak] using ha
  · rw [if_neg hany] at h
    rcases List.mem_append.1 h with h1 | h1
    · exact .inl h1
    · right
      have h2 : kv = (k, v) := by simpa using h1
      rw [h2]

/-- Each entry after folding one environment's parameters in was already
present or carries that environment's composite key for some parameter. -/
theorem foldl_params_mem (env : String) :
    ∀ (pairs ctx : List (String × String)) (kv : String × String),
      kv ∈ pairs.foldl (fun c p => dictInsert c (pyStrList [env, p.1]) p.2) ctx →
      kv ∈ ctx ∨ ∃ p ∈ pairs, kv.1 = pyStrList [env, p.1] := by
  intro pairs
  induction pairs with
  | nil => intro ctx kv h; exact .inl h
  | cons p rest ih =>
    intro ctx kv h
    simp only [List.foldl_cons] at h
    rcases ih _ kv h with h1 | ⟨q, hq, hk⟩
    · rcases mem_dictInsert _ _ _ _ h1 with h2 | h2
      · exact .inl h2
      · exact .inr ⟨p, by simp, h2⟩
    · exact .inr ⟨q, by simp [hq], hk⟩

/-- Each entry after folding all environments in was already present or
carries the composite key of some environment's parameter. -/
theorem foldl_envs_mem (get_all : String → List (String × String)) :
    ∀ (envs : List String) (ctx : List (String × String)) (kv : String × String),
      kv ∈ envs.foldl
          (fun c env => (get_all env).foldl
            (fun c2 p => dictInsert c2 (pyStrList [env, p.1]) p.2) c) ctx →
      kv ∈ ctx ∨ ∃ env ∈ envs, ∃ p ∈ get_all env, kv.1 = pyStrList [env, p.1] := by
  intro envs
  induction envs with
  | nil => intro ctx kv h; exact .inl h
  | cons e rest ih =>
    intro ctx kv h
    simp only [List.foldl_cons] at h
    rcases ih _ kv h with h1 | ⟨env, henv, p, hp, hk⟩
    · rcases foldl_params_mem e (get_all e) ctx kv h1 with h2 | ⟨p, hp, hk⟩
      · exact .inl h2
      · exact .inr ⟨e, by simp, p, hp, hk⟩
    · exact .inr ⟨env, by simp [henv], p, hp, hk⟩

/-- Folding parameters in preserves the definedness of every lookup. -/
theorem foldl_params_isSome_preserve (env k' : String) :
    ∀ (pairs ctx : List (String × String)), (dictGet ctx k').isSome = true →
      (dictGet (pairs.foldl (fun c p => dictInsert c (pyStrList [env, p.1]) p.2) ctx)
          k').isSome = true := by
  intro pairs
  induction pairs with
  | nil => intro ctx h; exact h
  | cons p rest ih =>
    intro ctx h
    simp only [List.foldl_cons]
    exact ih _ (dictGet_isSome_dictInsert _ _ _ _ h)

/-- After folding an environment's parameters in, the composite key of each
of them is defined. -/
theorem foldl_params_isSome_of_mem (env : String) :
    ∀ (pairs ctx : List (String × String)) (p : String × String), p ∈ pairs →
      (dictGet (pairs.foldl (fun c q => dictInsert c (pyStrList [env, q.1]) q.2) ctx)
          (pyStrList [env, p.1])).isSome = true := by
  intro pairs
  induction pairs with
  | nil => intro ctx p h; simp at h
  | cons q rest ih =>
    intro ctx p hp
    simp only [List.foldl_cons]
    rcases List.mem_cons.1 hp with rfl | hp'
    · apply foldl_params_isSome_preserve
      rw [dictGet_dictInsert_self]
      rfl
    · exact ih _ p hp'

/-- Folding environments in preserves the definedness of every lookup. -/
theorem foldl_envs_isSome_preserve (get_all : String → List (String × String)) (k' : String) :
    ∀ (envs : List String) (ctx : List (String × String)), (dictGet ctx k').isSome = true →
      (dictGet (envs.foldl
          (fun c env => (get_all env).foldl
            (fun c2 p => dictInsert c2 (pyStrList [env, p.1]) p.2) c) ctx) k').isSome = true := by
  intro envs
  induction envs with
  | nil => intro ctx h; exact h
  | cons e rest ih =>
    intro ctx h
    simp only [List.foldl_cons]
    exact ih _ (foldl_params_isSome_preserve e k' (get_all e) ctx h)

/-- After folding all environments in, the composite key of every parameter
of every folded environment is defined. -/
theorem foldl_envs_isSome_of_mem (get_all : String → List (String × String)) :
    ∀ (envs : List String) (ctx : List (String × String)) (env : String)
      (p : String × String), env ∈ envs → p ∈ get_all env →
      (dictGet (envs.foldl
          (fun c env2 => (get_all env2).foldl
            (fun c2 q => dictInsert c2 (pyStrList [env2, q.1]) q.2) c) ctx)
          (pyStrList [env, p.1])).isSome = true := by
  intro envs
  induction envs with
  | nil => intro ctx env p henv _; simp at henv
  | cons e rest ih =>
    intro ctx env p henv hp
    simp only [List.foldl_cons]
    rcases List.mem_cons.1 henv with rfl | henv'
    · exact foldl_envs_isSome_preserve get_all (pyStrList [env, p.1]) rest _
        (foldl_params_isSome_of_mem env (get_all env) ctx p hp)
    · exact ih _ env p henv' hp

/-- C3: for an existing configuration store, the returned environment list
is the stored list with every occurrence of the literal name "default"
removed (order preserved), it never contains "default", and the summary
message enumerates exactly the remaining names. -/
theorem load_resources_filters_default (config : SamConfig) (h : config.exists_ = true) :
    (_load_pipeline_bootstrap_resources config).1 =
        config.get_env_names.filter (fun env_name => env_name != "default") ∧
    "default" ∉ (_load_pipeline_bootstrap_resources config).1 ∧
    dictGet (_load_pipeline_bootstrap_resources config).2
        (pyStrList ["environment_names_message"]) =
      some ("Here are the environment names detected " ++ "in " ++ pipelineConfigPath ++ ":\n"
        ++ strIntercalate "\n"
          ((config.get_env_names.filter (fun env_name => env_name != "default")).map
            (fun env_name => "\t- " ++ env_name))) := by
  have h1 : (_load_pipeline_bootstrap_resources config).1 =
      config.get_env_names.filter (fun env_name => env_name != "default") := by
    simp [_load_pipeline_bootstrap_resources, h]
  refine ⟨h1, ?_, ?_⟩
  · rw [h1]
    intro hmem
    rcases List.mem_filter.1 hmem with ⟨_, hbne⟩
    simp at hbne
  · simp only [_load_pipeline_bootstrap_resources, h]
    simp only [Bool.true_eq_false, if_false]
    exact dictGet_dictInsert_self _ _ _

/-- The concrete store of the witness for C3: environments dev, prod and
the reserved default, no parameters. -/
def witnessStoreC3 : SamConfig :=
  { exists_ := true, get_env_names := ["dev", "prod", "default"], get_all := fun _ => [] }

/-- Witness for C3 at the spec's scenario store; the filtered list computes
to exactly dev and prod. -/
theorem load_resources_filters_default_witness :
    ((_load_pipeline_bootstrap_resources witnessStoreC3).1 =
        witnessStoreC3.get_env_names.filter (fun env_name => env_name != "default") ∧
      "default" ∉ (_load_pipeline_bootstrap_resources witnessStoreC3).1 ∧
      dictGet (_load_pipeline_bootstrap_resources witnessStoreC3).2
          (pyStrList ["environment_names_message"]) =
        some ("Here are the environment names detected " ++ "in " ++ pipelineConfigPath
          ++ ":\n" ++ strIntercalate "\n"
            ((witnessStoreC3.get_env_names.filter (fun env_name => env_name != "default")).map
              (fun env_name => "\t- " ++ env_name)))) ∧
    (_load_pipeline_bootstrap_resources witnessStoreC3).1 = ["dev", "prod"] :=
  ⟨load_resources_filters_default witnessStoreC3 rfl, by decide⟩

/-- C9: every context returned by `_load_pipeline_bootstrap_resources` —
whether or not the store exists — defines the summary key
`str(["environment_names_message"])`, which is the literal string
`['environment_names_message']`; every other entry is stored under the key
`str([env, key])` for an actual environment `env` of the store (with
"default" dropped) and a parameter name `key` of that environment; and when
the store exists, each such parameter is indeed stored under its composite
key. -/
theorem load_resources_context_key_shape (config : SamConfig) :
    pyStrList ["environment_names_message"] =
        "[" ++ singleQuote ++ "environment_names_message" ++ singleQuote ++ "]" ∧
    (dictGet (_load_pipeline_bootstrap_resources config).2
        (pyStrList ["environment_names_message"])).isSome = true ∧
    (∀ kv ∈ (_load_pipeline_bootstrap_resources config).2,
      kv.1 = pyStrList ["environment_names_message"] ∨
      ∃ env ∈ config.get_env_names.filter (fun env_name => env_name != "default"),
        ∃ p ∈ config.get_all env, kv.1 = pyStrList [env, p.1]) ∧
    (∀ env ∈ config.get_env_names.filter (fun env_name => env_name != "default"),
      ∀ p ∈ config.get_all env, config.exists_ = true →
        (dictGet (_load_pipeline_bootstrap_resources config).2
            (pyStrList [env, p.1])).isSome = true) := by
  refine ⟨by decide, ?_, ?_, ?_⟩
  · by_cases hc : config.exists_ = false
    · simp only [_load_pipeline_bootstrap_resources, hc, if_true]
      rw [dictGet_dictInsert_self]
      rfl
    · have hc' : config.exists_ = true := by
        cases hval : config.exists_
        · exact absurd hval hc
        · rfl
      simp only [_load_pipeline_bootstrap_resources, hc', Bool.true_eq_false, if_false]
      rw [dictGet_dictInsert_self]
      rfl
  · intro kv hkv
    by_cases hc : config.exists_ = false
    · simp only [_load_pipeline_bootstrap_resources, hc, if_true] at hkv
      rcases mem_dictInsert _ _ _ _ hkv with h1 | h1
      · simp at h1
      · exact .inl h1
    · have hc' : config.exists_ = true := by
        cases hval : config.exists_
        · exact absurd hval hc
        · rfl
      simp only [_load_pipeline_bootstrap_resources, hc', Bool.true_eq_false, if_false] at hkv
      rcases mem_dictInsert _ _ _ _ hkv with h1 | h1
      · rcases foldl_envs_mem config.get_all _ _ kv h1 with h2 | ⟨env, henv, p, hp, hk⟩
        · simp at h2
        · exact .inr ⟨env, henv, p, hp, hk⟩
      · exact .inl h1
  · intro env henv p hp hc
    simp only [_load_pipeline_bootstrap_resources, hc, Bool.true_eq_false, if_false]
    exact dictGet_isSome_dictInsert _ _ _ _
      (foldl_envs_isSome_of_mem config.get_all _ [] env p henv hp)

/-- The concrete store of the witness for C9: one environment with one
bootstrap parameter. -/
def witnessStoreC9 : SamConfig :=
  { exists_ := true, get_env_names := ["dev"],
    get_all := fun _ => [("pipeline_user", "arn:aws:iam::123:user/x")] }

/-- Witness for C9: at the concrete store, the parameter of environment dev
is stored under its composite key and the summary key is defined. -/
theorem load_resources_context_key_shape_witness :
    (dictGet (_load_pipeline_bootstrap_resources witnessStoreC9).2
        (pyStrList ["dev", "pipeline_user"])).isSome = true ∧
    (dictGet (_load_pipeline_bootstrap_resources witnessStoreC9).2
        (pyStrList ["environment_names_message"])).isSome = true :=
  ⟨(load_resources_context_key_shape witnessStoreC9).2.2.2 "dev" (by decide)
      ("pipeline_user", "arn:aws:iam::123:user/x") (by decide) rfl,
    (load_resources_context_key_shape witnessStoreC9).2.1⟩

/-- A loop exit reports strictly more checks than the index it started at. -/
theorem bootstrapCheckLoop_done_lt (required_env_number : Nat) (allow_bootstrap : Bool)
    (store : Nat → SamConfig) (confirm : Nat → Bool) :
    ∀ (fuel i checks : Nat) (e : List String) (c : List (String × String)),
      bootstrapCheckLoop required_env_number allow_bootstrap store confirm fuel i =
        .done checks e c → i < checks := by
  intro fuel
  induction fuel with
  | zero =>
    intro i checks e c h
    simp [bootstrapCheckLoop] at h
  | succ n ih =>
    intro i checks e c h
    simp only [bootstrapCheckLoop] at h
    by_cases h1 : (_load_pipeline_bootstrap_resources
        (store i)).1.length < required_env_number
    · rw [if_pos h1] at h
      by_cases h2 : (_prompt_run_bootstrap_within_pipeline_init allow_bootstrap
          (confirm i)).result = true
      · rw [if_pos h2] at h
        have := ih (i + 1) checks e c h
        omega
      · rw [if_neg h2] at h
        injection h with hcheck _ _
        omega
    · rw [if_neg h1] at h
      injection h with hcheck _ _
      omega

/-- C5: the precondition-check loop exits at a check exactly when the
detected environment count reaches the required number or the bootstrap
prompt returns false; when the count is insufficient and the prompt returns
true, the loop performs another check; and under inputs for which that
always happens, the loop never terminates within any fuel bound — it has no
fixed iteration cap. -/
theorem bootstrap_loop_exit_condition (required_env_number : Nat) (allow_bootstrap : Bool)
    (store : Nat → SamConfig) (confirm : Nat → Bool) :
    (∀ fuel i,
      bootstrapCheckLoop required_env_number allow_bootstrap store confirm (fuel + 1) i =
          .done (i + 1) (_load_pipeline_bootstrap_resources (store i)).1
            (_load_pipeline_bootstrap_resources (store i)).2 ↔
        (required_env_number ≤ (_load_pipeline_bootstrap_resources (store i)).1.length ∨
          (_prompt_run_bootstrap_within_pipeline_init allow_bootstrap
            (confirm i)).result = false)) ∧
    (∀ fuel i,
      (_load_pipeline_bootstrap_resources (store i)).1.length < required_env_number →
      (_prompt_run_bootstrap_within_pipeline_init allow_bootstrap (confirm i)).result = true →
      bootstrapCheckLoop required_env_number allow_bootstrap store confirm (fuel + 1) i =
        bootstrapCheckLoop required_env_number allow_bootstrap store confirm fuel (i + 1)) ∧
    ((∀ j, (_load_pipeline_bootstrap_resources (store j)).1.length < required_env_number ∧
        (_prompt_run_bootstrap_within_pipeline_init allow_bootstrap (confirm j)).result =
          true) →
      ∀ fuel i,
        bootstrapCheckLoop required_env_number allow_bootstrap store confirm fuel i =
          .outOfFuel) := by
  refine ⟨?_, ?_, ?_⟩
  · intro fuel i
    constructor
    · intro h
      by_cases h1 : (_load_pipeline_bootstrap_resources
          (store i)).1.length < required_env_number
      · by_cases h2 : (_prompt_run_bootstrap_within_pipeline_init allow_bootstrap
            (confirm i)).result = true
        · exfalso
          simp only [bootstrapCheckLoop] at h
          rw [if_pos h1, if_pos h2] at h
          have := bootstrapCheckLoop_done_lt required_env_number allow_bootstrap store
            confirm fuel (i + 1) (i + 1) _ _ h
          omega
        · right
          cases hval : (_prompt_run_bootstrap_within_pipeline_init allow_bootstrap
              (confirm i)).result
          · rfl
          · exact absurd hval h2
      · left
        omega
    · intro h
      simp only [bootstrapCheckLoop]
      by_cases h1 : (_load_pipeline_bootstrap_resources
          (store i)).1.length < required_env_number
      · have h2 : (_prompt_run_bootstrap_within_pipeline_init allow_bootstrap
            (confirm i)).result = false := by
          rcases h with h | h
          · omega
          · exact h
        rw [if_pos h1, if_neg (by simp [h2])]
      · rw [if_neg h1]
  · intro fuel i h1 h2
    simp only [bootstrapCheckLoop]
    rw [if_pos h1, if_pos h2]
  · intro hall fuel
    induction fuel with
    | zero =>
      intro i
      simp [bootstrapCheckLoop]
    | succ n ih =>
      intro i
      simp only [bootstrapCheckLoop]
      rw [if_pos (hall i).1, if_pos (hall i).2]
      exact ih (i + 1)

/-- Witness for C5: with a never-bootstrapped store and a user who always
accepts, the loop exhausts any amount of fuel. -/
theorem bootstrap_loop_exit_condition_witness :
    bootstrapCheckLoop 2 true
        (fun _ => { exists_ := false, get_env_names := [], get_all := fun _ => [] })
        (fun _ => true) 5 0 = .outOfFuel :=
  (bootstrap_loop_exit_condition 2 true
      (fun _ => { exists_ := false, get_env_names := [], get_all := fun _ => [] })
      (fun _ => true)).2.2
    (fun _ => ⟨by decide, rfl⟩) 5 0

/-- C10: with `allow_bootstrap = False` the bootstrap prompt always returns
false and never runs the bootstrap operation, so the precondition-check
loop exits after exactly one resource check, whatever the store holds. -/
theorem no_bootstrap_flag_single_check (required_env_number : Nat)
    (store : Nat → SamConfig) (confirm : Nat → Bool) (fuel : Nat) :
    (∀ c, _prompt_run_bootstrap_within_pipeline_init false c =
        { ranBootstrap := false, result := false }) ∧
    bootstrapCheckLoop required_env_number false store confirm (fuel + 1) 0 =
      .done 1 (_load_pipeline_bootstrap_resources (store 0)).1
        (_load_pipeline_bootstrap_resources (store 0)).2 := by
  constructor
  · intro c
    rfl
  · simp only [bootstrapCheckLoop]
    by_cases h1 : (_load_pipeline_bootstrap_resources
        (store 0)).1.length < required_env_number
    · rw [if_pos h1, if_neg (by simp [_prompt_run_bootstrap_within_pipeline_init])]
    · rw [if_neg h1]
